import Mathlib

set_option maxHeartbeats 1000000

/-!
Shallow embedding of the AXP209 power-management-chip driver (src/lib.rs).

The i2c bus is modelled as an oracle: `BusState.reply n` is the outcome of
the n-th write-then-read transaction (the device's reply bytes, or the bus
error), and `BusState.count` counts the transactions issued so far.  Each
driver accessor is a function `BusState E → Except E α × BusState E`, the
explicit-state rendering of the Rust `&mut self` methods.  Machine u16
arithmetic is Nat with `% 65536` at every operation that could wrap; the
i16 arithmetic of `temperature` is Int with an explicit u16-to-i16 cast and
a wrap-around normalisation.  Reply-buffer cells are bytes, kept as Nat
reduced `% 256`.
-/

/-- The bus oracle plus the number of transactions issued so far. -/
structure BusState (E : Type) where
  reply : Nat → Except E (List Nat)
  count : Nat

/-- Successor state after one transaction: only the counter advances. -/
def bump {E : Type} (s : BusState E) : BusState E :=
  ⟨s.reply, s.count + 1⟩

/-- One write-then-read transaction (`self.device.write_read(...)`): the
outcome is whatever the oracle holds for the current transaction index. -/
def write_read {E : Type} (s : BusState E) (_comm : List Nat) :
    Except E (List Nat) × BusState E :=
  (s.reply s.count, bump s)

/-- Reads cell `i` of a reply buffer; i2c buffers hold u8 values. -/
def byteAt (buf : List Nat) (i : Nat) : Nat :=
  buf.getD i 0 % 256

/-- Reserved battery-level value meaning the battery is absent
(`pub const BATTERY_LEVEL_MISSING: u8 = 0x7f`). -/
def BATTERY_LEVEL_MISSING : Nat := 0x7f

def Registers.AdcControl : Nat := 0x82

def Registers.AcinVoltage : Nat := 0x56

def Registers.AcinCurrent : Nat := 0x58

def Registers.VbusVoltage : Nat := 0x5a

def Registers.VbusCurrent : Nat := 0x5c

def Registers.Temperature : Nat := 0x5e

def Registers.Gpio0Voltage : Nat := 0x64

def Registers.Gpio1Voltage : Nat := 0x66

def Registers.BatteryVoltage : Nat := 0x78

def Registers.BatteryChargeCurrent : Nat := 0x7a

def Registers.BatteryDischargeCurrent : Nat := 0x7c

def Registers.BatteryLevel : Nat := 0xb9

/-- Modelled from the spec: the status-decoder type of the `adc_status`
module, whose source file is not included in the repository snapshot.  Per
the spec's Status Decoder section it wraps the 16-bit ADC-control register
as a queryable set of per-channel sampling-enable flags; only the wrapped
16-bit value matters to the claims treated here. -/
structure AdcStatus where
  bits : Nat

/-- Constructor used by `adc_control` (`AdcStatus::new`). -/
def AdcStatus.new (v : Nat) : AdcStatus :=
  ⟨v⟩

/-- Big-endian read of a two-byte buffer (`BigEndian::read_u16`). -/
def read_u16_be (buf : List Nat) : Nat :=
  byteAt buf 0 * 256 + byteAt buf 1

/-- Embedding of `write_read_byte`: one transaction, then the first reply
byte. -/
def write_read_byte {E : Type} (s : BusState E) (send : Nat) :
    Except E Nat × BusState E :=
  match write_read s [send] with
  | (Except.ok buf, s') => (Except.ok (byteAt buf 0), s')
  | (Except.error e, s') => (Except.error e, s')

/-- Embedding of `adc_control`: reads two bytes from the ADC-control
register and wraps their big-endian value in `AdcStatus`. -/
def adc_control {E : Type} (s : BusState E) :
    Except E AdcStatus × BusState E :=
  match write_read s [Registers.AdcControl] with
  | (Except.ok buf, s') => (Except.ok (AdcStatus.new (read_u16_be buf)), s')
  | (Except.error e, s') => (Except.error e, s')

/-- Embedding of `get_adc_10bits`: `value = (recv[0] as u16) << 4;
value |= recv[1] as u16 & 0x0f`. -/
def get_adc_10bits {E : Type} (s : BusState E) (register : Nat) :
    Except E Nat × BusState E :=
  match write_read s [register] with
  | (Except.ok recv, s') =>
      (Except.ok ((byteAt recv 0 <<< 4) % 65536 ||| (byteAt recv 1 &&& 0x0f)), s')
  | (Except.error e, s') => (Except.error e, s')

/-- Pure form of the `get_adc_10bits` bit packing on two reply bytes. -/
def adc10 (hi lo : Nat) : Nat :=
  ((hi % 256) <<< 4) % 65536 ||| ((lo % 256) &&& 0x0f)

/-- Pure form of the `battery_discharging_current` bit packing, which uses
five low bits instead of four. -/
def adc11 (hi lo : Nat) : Nat :=
  ((hi % 256) <<< 5) % 65536 ||| ((lo % 256) &&& 0x1f)

/-- Embedding of `battery_discharging_current`: `value = (recv[0] as u16) << 5;
value |= recv[1] as u16 & 0x1f; Ok(value / 2)`. -/
def battery_discharging_current {E : Type} (s : BusState E) :
    Except E Nat × BusState E :=
  match write_read s [Registers.BatteryDischargeCurrent] with
  | (Except.ok recv, s') =>
      (Except.ok (((byteAt recv 0 <<< 5) % 65536 ||| (byteAt recv 1 &&& 0x1f)) / 2), s')
  | (Except.error e, s') => (Except.error e, s')

/-- Embedding of `battery_voltage`: `value += value / 10`. -/
def battery_voltage {E : Type} (s : BusState E) :
    Except E Nat × BusState E :=
  match get_adc_10bits s Registers.BatteryVoltage with
  | (Except.ok value, s') => (Except.ok ((value + value / 10) % 65536), s')
  | (Except.error e, s') => (Except.error e, s')

/-- Embedding of `battery_charging_current`: `Ok(value / 2)`. -/
def battery_charging_current {E : Type} (s : BusState E) :
    Except E Nat × BusState E :=
  match get_adc_10bits s Registers.BatteryChargeCurrent with
  | (Except.ok value, s') => (Except.ok (value / 2), s')
  | (Except.error e, s') => (Except.error e, s')

/-- Embedding of `acin_voltage`: `value += value / 7`. -/
def acin_voltage {E : Type} (s : BusState E) :
    Except E Nat × BusState E :=
  match get_adc_10bits s Registers.AcinVoltage with
  | (Except.ok value, s') => (Except.ok ((value + value / 7) % 65536), s')
  | (Except.error e, s') => (Except.error e, s')

/-- Embedding of `acin_current`: `value = ((value * 16) / 10) / 16`. -/
def acin_current {E : Type} (s : BusState E) :
    Except E Nat × BusState E :=
  match get_adc_10bits s Registers.AcinCurrent with
  | (Except.ok value, s') => (Except.ok (value * 16 % 65536 / 10 / 16), s')
  | (Except.error e, s') => (Except.error e, s')

/-- Embedding of `vbus_voltage`: `value += value / 7`. -/
def vbus_voltage {E : Type} (s : BusState E) :
    Except E Nat × BusState E :=
  match get_adc_10bits s Registers.VbusVoltage with
  | (Except.ok value, s') => (Except.ok ((value + value / 7) % 65536), s')
  | (Except.error e, s') => (Except.error e, s')

/-- Embedding of `vbus_current`: `value = ((value * 16) / 6) / 16;
Ok(value / 2)`. -/
def vbus_current {E : Type} (s : BusState E) :
    Except E Nat × BusState E :=
  match get_adc_10bits s Registers.VbusCurrent with
  | (Except.ok value, s') => (Except.ok (value * 16 % 65536 / 6 / 16 / 2), s')
  | (Except.error e, s') => (Except.error e, s')

/-- Rust `u16 as i16` cast: two's-complement reinterpretation. -/
def i16_of_u16 (n : Nat) : Int :=
  if n < 32768 then (n : Int) else (n : Int) - 65536

/-- Wrap-around normalisation of i16 arithmetic into [-32768, 32767]. -/
def i16_wrap (x : Int) : Int :=
  (x + 32768) % 65536 - 32768

/-- Embedding of `temperature`: `let mut value = value as i16 / 10;
value -= 145` (i16 division truncates toward zero, hence `Int.tdiv`). -/
def temperature {E : Type} (s : BusState E) :
    Except E Int × BusState E :=
  match get_adc_10bits s Registers.Temperature with
  | (Except.ok value, s') =>
      (Except.ok (i16_wrap (Int.tdiv (i16_of_u16 value) 10 - 145)), s')
  | (Except.error e, s') => (Except.error e, s')

/-- Embedding of `gpio0_voltage`: `Ok(value / 2)`. -/
def gpio0_voltage {E : Type} (s : BusState E) :
    Except E Nat × BusState E :=
  match get_adc_10bits s Registers.Gpio0Voltage with
  | (Except.ok value, s') => (Except.ok (value / 2), s')
  | (Except.error e, s') => (Except.error e, s')

/-- Embedding of `gpio1_voltage`: `Ok(value / 2)`. -/
def gpio1_voltage {E : Type} (s : BusState E) :
    Except E Nat × BusState E :=
  match get_adc_10bits s Registers.Gpio1Voltage with
  | (Except.ok value, s') => (Except.ok (value / 2), s')
  | (Except.error e, s') => (Except.error e, s')

/-- Embedding of `battery_level`: `Ok(x & 0b0111_1111)` on success,
`Err(x)` on failure. -/
def battery_level {E : Type} (s : BusState E) :
    Except E Nat × BusState E :=
  match write_read_byte s Registers.BatteryLevel with
  | (Except.ok x, s') => (Except.ok (x &&& 0b01111111), s')
  | (Except.error e, s') => (Except.error e, s')

/-- Embedding of `battery_present`: `Ok(level == BATTERY_LEVEL_MISSING)`,
exactly as the source writes it. -/
def battery_present {E : Type} (s : BusState E) :
    Except E Bool × BusState E :=
  match battery_level s with
  | (Except.ok level, s') => (Except.ok (level == BATTERY_LEVEL_MISSING), s')
  | (Except.error e, s') => (Except.error e, s')

/-- Concrete bus whose every transaction succeeds with the fixed reply `l`. -/
def busOf (l : List Nat) : BusState Nat :=
  ⟨fun _ => Except.ok l, 0⟩

/-- Concrete bus whose every transaction fails with error code `e`. -/
def busErrAt (e : Nat) : BusState Nat :=
  ⟨fun _ => Except.error e, 0⟩

theorem write_read_ok {E : Type} (s : BusState E) (comm buf : List Nat)
    (h : s.reply s.count = Except.ok buf) :
    write_read s comm = (Except.ok buf, bump s) := by
  simp [write_read, h]

theorem get_adc_10bits_ok {E : Type} (s : BusState E) (r hi lo : Nat)
    (h : s.reply s.count = Except.ok [hi, lo]) :
    get_adc_10bits s r = (Except.ok (adc10 hi lo), bump s) := by
  simp [get_adc_10bits, write_read, h, byteAt, adc10, List.getD]

theorem adc10_le (hi lo : Nat) : adc10 hi lo ≤ 4095 := by
  have h1 : ((hi % 256) <<< 4) % 65536 < 2 ^ 12 := by
    rw [Nat.shiftLeft_eq]
    have hh : hi % 256 < 256 := Nat.mod_lt _ (by norm_num)
    norm_num
    omega
  have h2 : (lo % 256) &&& 0x0f < 2 ^ 12 :=
    lt_of_le_of_lt Nat.and_le_right (by norm_num)
  have h3 := Nat.or_lt_two_pow h1 h2
  have h4 : adc10 hi lo < 2 ^ 12 := h3
  omega

theorem adc11_le (hi lo : Nat) : adc11 hi lo ≤ 8191 := by
  have h1 : ((hi % 256) <<< 5) % 65536 < 2 ^ 13 := by
    rw [Nat.shiftLeft_eq]
    have hh : hi % 256 < 256 := Nat.mod_lt _ (by norm_num)
    norm_num
    omega
  have h2 : (lo % 256) &&& 0x1f < 2 ^ 13 :=
    lt_of_le_of_lt Nat.and_le_right (by norm_num)
  have h3 := Nat.or_lt_two_pow h1 h2
  have h4 : adc11 hi lo < 2 ^ 13 := h3
  omega

theorem adc10_eq_raw (hi lo : Nat) (hhi : hi < 256) (hlo : lo < 256) :
    adc10 hi lo = (hi <<< 4) ||| (lo &&& 0x0f) := by
  unfold adc10
  rw [Nat.mod_eq_of_lt hhi, Nat.mod_eq_of_lt hlo]
  congr 1
  rw [Nat.shiftLeft_eq]
  have h16 : hi * 2 ^ 4 < 65536 := by norm_num; omega
  rw [Nat.mod_eq_of_lt h16]

theorem adc11_eq_raw (hi lo : Nat) (hhi : hi < 256) (hlo : lo < 256) :
    adc11 hi lo = (hi <<< 5) ||| (lo &&& 0x1f) := by
  unfold adc11
  rw [Nat.mod_eq_of_lt hhi, Nat.mod_eq_of_lt hlo]
  congr 1
  rw [Nat.shiftLeft_eq]
  have h32 : hi * 2 ^ 5 < 65536 := by norm_num; omega
  rw [Nat.mod_eq_of_lt h32]

/-- C2 counterexample: on reply bytes `[0xFF, 0x0F]` the decoder returns
4095, not the claimed Layout-A maximum 1023. -/
theorem get_adc_10bits_max_bytes_not_1023 :
    (get_adc_10bits (busOf [0xff, 0x0f]) Registers.AcinVoltage).1 = Except.ok 4095 ∧
      (4095 : Nat) ≠ 1023 :=
  ⟨rfl, by norm_num⟩

/-- C2 (amended): for every pair of reply bytes `[hi, lo]`,
`get_adc_10bits` returns `(hi << 4) | (lo & 0x0F)`, and this decoded sample
lies in the range 0–4095; bytes `[0, 0]` decode to 0 and bytes
`[0xFF, 0x0F]` decode to 4095, the actual maximum. -/
theorem get_adc_10bits_formula_and_range {E : Type} (s : BusState E) (r hi lo : Nat)
    (hhi : hi < 256) (hlo : lo < 256)
    (h : s.reply s.count = Except.ok [hi, lo]) :
    (get_adc_10bits s r).1 = Except.ok ((hi <<< 4) ||| (lo &&& 0x0f)) ∧
      (hi <<< 4) ||| (lo &&& 0x0f) ≤ 4095 := by
  have hg := get_adc_10bits_ok s r hi lo h
  have hb := adc10_le hi lo
  have he := adc10_eq_raw hi lo hhi hlo
  constructor
  · rw [hg, he]
  · rw [← he]; exact hb

/-- C2 witness: evaluation of the amended claim at the two inputs the spec
names, `[0, 0]` and `[0xFF, 0x0F]`. -/
theorem get_adc_10bits_formula_and_range_witness :
    (get_adc_10bits (busOf [0, 0]) Registers.BatteryVoltage).1 = Except.ok 0 ∧
      (get_adc_10bits (busOf [0xff, 0x0f]) Registers.BatteryVoltage).1 = Except.ok 4095 ∧
      (0xff <<< 4) ||| (0x0f &&& 0x0f) ≤ 4095 := by
  have h1 := get_adc_10bits_formula_and_range (busOf [0, 0])
    Registers.BatteryVoltage 0 0 (by norm_num) (by norm_num) rfl
  have h2 := get_adc_10bits_formula_and_range (busOf [0xff, 0x0f])
    Registers.BatteryVoltage 0xff 0x0f (by norm_num) (by norm_num) rfl
  refine ⟨?_, ?_, h2.2⟩
  · rw [h1.1]
    exact congrArg Except.ok (by decide)
  · rw [h2.1]
    exact congrArg Except.ok (by decide)

/-- C3 counterexample: on reply bytes `[0xFF, 0x1F]` the discharge-current
decode is 8191, not the claimed Layout-B maximum 2047, and the returned
milliamp value is 4095. -/
theorem battery_discharging_current_max_bytes_not_2047 :
    adc11 0xff 0x1f = 8191 ∧ (8191 : Nat) ≠ 2047 ∧
      (battery_discharging_current (busOf [0xff, 0x1f])).1 = Except.ok 4095 :=
  ⟨rfl, by norm_num, rfl⟩

/-- C3 (amended): for every pair of reply bytes `[hi, lo]`,
`battery_discharging_current` decodes the raw sample as
`(hi << 5) | (lo & 0x1F)`, the decoded sample lies in the range 0–8191
(bytes `[0xFF, 0x1F]` decode to 8191, the actual maximum), and the returned
milliamp value is the decoded sample divided by 2 (integer division). -/
theorem battery_discharging_current_decode_halved {E : Type} (s : BusState E) (hi lo : Nat)
    (hhi : hi < 256) (hlo : lo < 256)
    (h : s.reply s.count = Except.ok [hi, lo]) :
    (battery_discharging_current s).1 = Except.ok (((hi <<< 5) ||| (lo &&& 0x1f)) / 2) ∧
      (hi <<< 5) ||| (lo &&& 0x1f) ≤ 8191 := by
  have hb := adc11_le hi lo
  have he := adc11_eq_raw hi lo hhi hlo
  constructor
  · have : (battery_discharging_current s).1 = Except.ok (adc11 hi lo / 2) := by
      simp [battery_discharging_current, write_read, h, byteAt, adc11, List.getD]
    rw [this, he]
  · rw [← he]; exact hb

/-- C3 witness: evaluation of the amended claim at the maximal bytes
`[0xFF, 0x1F]`. -/
theorem battery_discharging_current_decode_halved_witness :
    (battery_discharging_current (busOf [0xff, 0x1f])).1 = Except.ok 4095 ∧
      (0xff <<< 5) ||| (0x1f &&& 0x1f) ≤ 8191 := by
  have h1 := battery_discharging_current_decode_halved (busOf [0xff, 0x1f])
    0xff 0x1f (by norm_num) (by norm_num) rfl
  refine ⟨?_, h1.2⟩
  rw [h1.1]
  exact congrArg Except.ok (by decide)

/-- C7: for every single reply byte `b` from the battery-level register,
`battery_level` returns `b & 0x7F`, a value with the top sampling-control
bit masked off (hence at most 127). -/
theorem battery_level_masks_top_bit {E : Type} (s : BusState E) (b : Nat)
    (hb : b < 256) (h : s.reply s.count = Except.ok [b]) :
    (battery_level s).1 = Except.ok (b &&& 0x7f) ∧ b &&& 0x7f ≤ 127 := by
  constructor
  · simp [battery_level, write_read_byte, write_read, h, byteAt, List.getD,
      Nat.mod_eq_of_lt hb]
  · exact Nat.and_le_right

/-- C7 witness: byte `0xFF` yields the masked level 127 (the
missing-battery sentinel) and byte `0x32` yields 50. -/
theorem battery_level_masks_top_bit_witness :
    (battery_level (busOf [0xff])).1 = Except.ok 127 ∧
      (battery_level (busOf [0x32])).1 = Except.ok 50 := by
  have h1 := battery_level_masks_top_bit (busOf [0xff]) 0xff (by norm_num) rfl
  have h2 := battery_level_masks_top_bit (busOf [0x32]) 0x32 (by norm_num) rfl
  constructor
  · rw [h1.1]
    exact congrArg Except.ok (by decide)
  · rw [h2.1]
    exact congrArg Except.ok (by decide)

/-- C8 counterexample: a register byte of 101 makes `battery_level` return
101, which is neither a percentage in 0–100 nor the sentinel 127. -/
theorem battery_level_can_exceed_100 :
    (battery_level (busOf [101])).1 = Except.ok 101 ∧
      ¬(101 ≤ 100 ∨ (101 : Nat) = 127) :=
  ⟨rfl, by norm_num⟩

/-- C8 (amended): every value `battery_level` returns lies in the range
0–127; the mask alone does not exclude the values 101–126, so only the
127 bound is guaranteed to callers. -/
theorem battery_level_le_127 {E : Type} (s : BusState E) (b r : Nat)
    (h : s.reply s.count = Except.ok [b])
    (hr : (battery_level s).1 = Except.ok r) :
    r ≤ 127 := by
  have hv : (battery_level s).1 = Except.ok (byteAt [b] 0 &&& 127) := by
    simp [battery_level, write_read_byte, write_read, h]
  rw [hv] at hr
  simp only [Except.ok.injEq] at hr
  exact hr ▸ Nat.and_le_right

/-- C8 witness: evaluation of the amended bound at register byte `0x32`. -/
theorem battery_level_le_127_witness :
    (busOf [0x32]).reply (busOf [0x32]).count = Except.ok [0x32] ∧ (50 : Nat) ≤ 127 :=
  ⟨rfl, battery_level_le_127 (busOf [0x32]) 0x32 50 rfl rfl⟩

theorem acin_current_ok {E : Type} (s : BusState E) (hi lo : Nat)
    (h : s.reply s.count = Except.ok [hi, lo]) :
    (acin_current s).1 = Except.ok (adc10 hi lo * 16 % 65536 / 10 / 16) := by
  simp [acin_current, get_adc_10bits, write_read, h, byteAt, adc10, List.getD]

theorem vbus_current_ok {E : Type} (s : BusState E) (hi lo : Nat)
    (h : s.reply s.count = Except.ok [hi, lo]) :
    (vbus_current s).1 = Except.ok (adc10 hi lo * 16 % 65536 / 6 / 16 / 2) := by
  simp [vbus_current, get_adc_10bits, write_read, h, byteAt, adc10, List.getD]

/-- C1: the code inverts the claimed polarity of `battery_present`: with
battery level 50 (reply byte 0x32) it returns false, and with the
missing-battery sentinel byte 0x7F it returns true, the exact opposite of
presence being any level other than the sentinel. -/
theorem battery_present_inverted_at_level_50 :
    (battery_level (busOf [0x32])).1 = Except.ok 50 ∧
      (battery_present (busOf [0x32])).1 = Except.ok false ∧
      (battery_present (busOf [0x7f])).1 = Except.ok true :=
  ⟨rfl, rfl, rfl⟩

/-- C4: for every pair of reply bytes, `battery_voltage` returns
`raw + raw/10` millivolts with integer division, where `raw` is the
Layout-A decoded sample. -/
theorem battery_voltage_formula {E : Type} (s : BusState E) (hi lo : Nat)
    (h : s.reply s.count = Except.ok [hi, lo]) :
    (battery_voltage s).1 = Except.ok (adc10 hi lo + adc10 hi lo / 10) := by
  have hb := adc10_le hi lo
  have hv : (battery_voltage s).1
      = Except.ok ((adc10 hi lo + adc10 hi lo / 10) % 65536) := by
    simp [battery_voltage, get_adc_10bits, write_read, h, byteAt, adc10, List.getD]
  rw [hv]
  exact congrArg Except.ok (by omega)

/-- C4 witness: reply bytes `[62, 8]` decode to raw 1000 and yield
1100 mV. -/
theorem battery_voltage_formula_witness :
    (battery_voltage (busOf [62, 8])).1 = Except.ok 1100 ∧ adc10 62 8 = 1000 := by
  have h1 := battery_voltage_formula (busOf [62, 8]) 62 8 rfl
  constructor
  · rw [h1]
    exact congrArg Except.ok (by decide)
  · decide

/-- C5: for every pair of reply bytes, `acin_current` returns
`((raw * 16) / 10) / 16` milliamps, each division truncating, with the
multiplication performed before the divisions, where `raw` is the Layout-A
decoded sample. -/
theorem acin_current_formula {E : Type} (s : BusState E) (hi lo : Nat)
    (h : s.reply s.count = Except.ok [hi, lo]) :
    (acin_current s).1 = Except.ok (adc10 hi lo * 16 / 10 / 16) := by
  have hb := adc10_le hi lo
  have hmod : adc10 hi lo * 16 % 65536 = adc10 hi lo * 16 := by omega
  rw [acin_current_ok s hi lo h, hmod]

/-- C5 witness: reply bytes `[62, 8]` decode to raw 1000 and yield
100 mA. -/
theorem acin_current_formula_witness :
    (acin_current (busOf [62, 8])).1 = Except.ok 100 ∧ adc10 62 8 * 16 / 10 / 16 = 100 := by
  have h1 := acin_current_formula (busOf [62, 8]) 62 8 rfl
  constructor
  · rw [h1]
    exact congrArg Except.ok (by decide)
  · decide

/-- C6: for every pair of reply bytes, `temperature` returns the signed
value `(raw / 10) - 145` degrees Celsius with integer division, where
`raw` is the Layout-A decoded sample. -/
theorem temperature_formula {E : Type} (s : BusState E) (hi lo : Nat)
    (h : s.reply s.count = Except.ok [hi, lo]) :
    (temperature s).1 = Except.ok (((adc10 hi lo : Nat) : Int) / 10 - 145) := by
  have hb := adc10_le hi lo
  have hv : (temperature s).1
      = Except.ok (i16_wrap (Int.tdiv (i16_of_u16 (adc10 hi lo)) 10 - 145)) := by
    simp [temperature, get_adc_10bits, write_read, h, byteAt, adc10, List.getD]
  rw [hv]
  refine congrArg Except.ok ?_
  have hlt : adc10 hi lo < 32768 := by omega
  unfold i16_of_u16
  rw [if_pos hlt]
  have ht : Int.tdiv ((adc10 hi lo : Nat) : Int) 10 = ((adc10 hi lo : Nat) : Int) / 10 := rfl
  rw [ht]
  unfold i16_wrap
  omega

/-- C6 witness: reply bytes `[90, 10]` decode to raw 1450 and yield 0 °C;
bytes `[0, 0]` decode to raw 0 and yield -145 °C. -/
theorem temperature_formula_witness :
    (temperature (busOf [90, 10])).1 = Except.ok 0 ∧
      (temperature (busOf [0, 0])).1 = Except.ok (-145) := by
  have h1 := temperature_formula (busOf [90, 10]) 90 10 rfl
  have h2 := temperature_formula (busOf [0, 0]) 0 0 rfl
  constructor
  · rw [h1]
    exact congrArg Except.ok (by decide)
  · rw [h2]
    exact congrArg Except.ok (by decide)

/-- C10: the decoded Layout-A sample is at most 4095, so the u16 product
`value * 16` inside `acin_current` and `vbus_current` is at most 65520 and
never wraps: both conversions equal the exact, unwrapped arithmetic. -/
theorem current_conversions_no_overflow {E : Type} (s : BusState E) (hi lo : Nat)
    (h : s.reply s.count = Except.ok [hi, lo]) :
    adc10 hi lo ≤ 4095 ∧ adc10 hi lo * 16 ≤ 65520 ∧
      (acin_current s).1 = Except.ok (adc10 hi lo * 16 / 10 / 16) ∧
      (vbus_current s).1 = Except.ok (adc10 hi lo * 16 / 6 / 16 / 2) := by
  have hb := adc10_le hi lo
  have hmod : adc10 hi lo * 16 % 65536 = adc10 hi lo * 16 := by omega
  refine ⟨hb, by omega, ?_, ?_⟩
  · rw [acin_current_ok s hi lo h, hmod]
  · rw [vbus_current_ok s hi lo h, hmod]

/-- C10 witness: evaluation at the maximal reply bytes `[0xFF, 0x0F]`,
where the product reaches 65520 exactly. -/
theorem current_conversions_no_overflow_witness :
    adc10 0xff 0x0f ≤ 4095 ∧ adc10 0xff 0x0f * 16 ≤ 65520 ∧
      (acin_current (busOf [0xff, 0x0f])).1 = Except.ok (adc10 0xff 0x0f * 16 / 10 / 16) ∧
      (vbus_current (busOf [0xff, 0x0f])).1 = Except.ok (adc10 0xff 0x0f * 16 / 6 / 16 / 2) :=
  current_conversions_no_overflow (busOf [0xff, 0x0f]) 0xff 0x0f rfl

/-- C9: when the bus transaction fails with error `e`, every accessor
returns exactly that error unchanged and issues exactly one transaction:
the final state is `bump s`, the input state with the transaction counter
advanced once. -/
theorem accessors_propagate_bus_error_once {E : Type} (s : BusState E) (e : E)
    (h : s.reply s.count = Except.error e) :
    battery_voltage s = (Except.error e, bump s) ∧
      battery_charging_current s = (Except.error e, bump s) ∧
      battery_discharging_current s = (Except.error e, bump s) ∧
      acin_voltage s = (Except.error e, bump s) ∧
      acin_current s = (Except.error e, bump s) ∧
      vbus_voltage s = (Except.error e, bump s) ∧
      vbus_current s = (Except.error e, bump s) ∧
      temperature s = (Except.error e, bump s) ∧
      gpio0_voltage s = (Except.error e, bump s) ∧
      gpio1_voltage s = (Except.error e, bump s) ∧
      battery_level s = (Except.error e, bump s) ∧
      battery_present s = (Except.error e, bump s) ∧
      adc_control s = (Except.error e, bump s) := by
  refine ⟨?_, ?_, ?_, ?_, ?_, ?_, ?_, ?_, ?_, ?_, ?_, ?_, ?_⟩ <;>
    simp [battery_voltage, battery_charging_current, battery_discharging_current,
      acin_voltage, acin_current, vbus_voltage, vbus_current, temperature,
      gpio0_voltage, gpio1_voltage, battery_level, battery_present, adc_control,
      write_read_byte, get_adc_10bits, write_read, h]

/-- C9 witness: on a bus that fails with error code 7, every accessor
returns that error with the transaction counter advanced exactly once. -/
theorem accessors_propagate_bus_error_once_witness :
    (busErrAt 7).reply (busErrAt 7).count = Except.error 7 ∧
      (battery_voltage (busErrAt 7) = (Except.error 7, bump (busErrAt 7)) ∧
        battery_charging_current (busErrAt 7) = (Except.error 7, bump (busErrAt 7)) ∧
        battery_discharging_current (busErrAt 7) = (Except.error 7, bump (busErrAt 7)) ∧
        acin_voltage (busErrAt 7) = (Except.error 7, bump (busErrAt 7)) ∧
        acin_current (busErrAt 7) = (Except.error 7, bump (busErrAt 7)) ∧
        vbus_voltage (busErrAt 7) = (Except.error 7, bump (busErrAt 7)) ∧
        vbus_current (busErrAt 7) = (Except.error 7, bump (busErrAt 7)) ∧
        temperature (busErrAt 7) = (Except.error 7, bump (busErrAt 7)) ∧
        gpio0_voltage (busErrAt 7) = (Except.error 7, bump (busErrAt 7)) ∧
        gpio1_voltage (busErrAt 7) = (Except.error 7, bump (busErrAt 7)) ∧
        battery_level (busErrAt 7) = (Except.error 7, bump (busErrAt 7)) ∧
        battery_present (busErrAt 7) = (Except.error 7, bump (busErrAt 7)) ∧
        adc_control (busErrAt 7) = (Except.error 7, bump (busErrAt 7))) :=
  ⟨rfl, accessors_propagate_bus_error_once (busErrAt 7) 7 rfl⟩
